import Mathlib

/-!
Verification development for the Spyder variable-explorer core: the remote
value channel (`namespacebrowser.py`), the collections delegate
(`collectionsdelegate.py`), and the lazy sortable table model of the
collections editor.  Where the deciding code is present under the repository
sources it is embedded directly; the collections-editor model itself
(`spyder/widgets/collectionseditor.py`) is represented only by its tests, so
its natural sort, sort cycling and paging behaviour are modelled from the
specification, as marked on each such definition.
-/

namespace Spyder

/-! ### Character-list utilities shared by several embeddings -/

/-- Boolean prefix test on character lists (models Python `str.startswith`). -/
def startsWithL : List Char → List Char → Bool
  | [], _ => true
  | _ :: _, [] => false
  | p :: ps, c :: cs => p == c && startsWithL ps cs

/-- Boolean substring test (models Python `needle in haystack`). -/
def containsSub (pat : List Char) : List Char → Bool
  | [] => startsWithL pat []
  | c :: cs => startsWithL pat (c :: cs) || containsSub pat cs

/-- Numeric value of a decimal digit character. -/
def digitVal (c : Char) : Nat := c.toNat - 48

/-- Value of a most-significant-first decimal digit run. -/
def digitsVal (s : List Char) : Nat := s.foldl (fun a c => 10 * a + digitVal c) 0

/-- Fuelled digit emitter for decimal rendering; `gas` bounds the number of
division steps and any `gas > n` is enough. -/
def decCharsGo (gas : Nat) (n : Nat) (acc : List Char) : List Char :=
  match gas with
  | 0 => acc
  | gas + 1 =>
    if n < 10 then Nat.digitChar n :: acc
    else decCharsGo gas (n / 10) (Nat.digitChar (n % 10) :: acc)

/-- Decimal rendering of a natural number as a digit-character list. -/
def decChars (n : Nat) : List Char := decCharsGo (n + 1) n []

/-- Whitespace recognised when Python `int(str)` strips its argument. -/
def isWs (c : Char) : Bool := c == ' ' || c == '\t' || c == '\n' || c == '\r'

/-- Strip leading and trailing whitespace from a character list. -/
def trimWs (s : List Char) : List Char :=
  ((s.dropWhile isWs).reverse.dropWhile isWs).reverse

/-- Parse a nonempty all-digit run. -/
def parseDigits (s : List Char) : Option Nat :=
  if !s.isEmpty && s.all Char.isDigit then some (digitsVal s) else none

/-- Model of Python `int(str)`: strip whitespace, optional sign, digit run.
(Underscore digit grouping, which never occurs in size descriptors, is not
modelled.) -/
def parsePyInt (s : List Char) : Option Int :=
  match trimWs s with
  | '-' :: rest => (parseDigits rest).map (fun n => -(n : Int))
  | '+' :: rest => (parseDigits rest).map (fun n => (n : Int))
  | t => (parseDigits t).map (fun n => (n : Int))

/-! ### Remote value channel: `NamepaceBrowserWidget.get_value` / `set_value`
(`spyder/plugins/ipythonconsole/widgets/namespacebrowser.py`) -/

/-- Exception raised by the kernel call or by `cloudpickle.loads`.
`pickleError` stands for `PicklingError`, `UnpicklingError` and `TypeError`
(one `except` clause catches all three, inspecting the message);
`moduleNotFound` carries the reported module name. -/
inductive PyExc where
  | timeoutError
  | pickleError (msg : String)
  | runtimeError
  | keyError
  | commError
  | moduleNotFound (modName : String)
  | otherError
deriving DecidableEq, Repr

/-- Phase at which the exception was raised inside `get_value`'s `try` block:
during the blocking kernel call (then `kernel_call_success` is still `False`)
or during `cloudpickle.loads` (then it is `True`). -/
inductive Phase where
  | call
  | loads
deriving DecidableEq, Repr

/-- Outcome of the guarded region of `get_value`. -/
inductive FetchOutcome where
  | ok (v : Nat)
  | raised (ph : Phase) (e : PyExc)
deriving DecidableEq, Repr

/-- The fixed user-facing explanation selected by `get_value`'s handlers.
Each constructor stands for one `reason_*` message of the source; the
python-version-mismatch message's formatting of the two version numbers is
not modelled, only which explanation is chosen. -/
inductive Reason where
  | big
  | notPicklable
  | dead
  | comm
  | unknown
  | missingPackageTarget (m : String)
  | missingPackageInstaller (m : String)
  | missingPackage (m : String)
  | mismatchedNumpy
  | mismatchedPandas
  | mismatchedPython
deriving DecidableEq, Repr

/-- What `get_value` does as seen by its caller. -/
inductive GetValueResult where
  | value (v : Nat)
  | valueError (r : Reason)
  | keyErrorReraised
deriving DecidableEq, Repr

/-- The message test of the pickle/type-error handler:
`str(err).startswith(("code expected at most", "code() argument"))`. -/
def isVersionMismatchMsg (msg : String) : Bool :=
  startsWithL "code expected at most".data msg.data ||
  startsWithL "code() argument".data msg.data

/-- The `except` chain of `get_value`, in source order.  `conda` is
`is_conda_based_app()`. -/
def handleFetchExc (conda : Bool) (ph : Phase) (e : PyExc) : GetValueResult :=
  match e with
  | .timeoutError => .valueError .big
  | .pickleError msg =>
      if isVersionMismatchMsg msg then .valueError .mismatchedPython
      else .valueError .notPicklable
  | .runtimeError => .valueError .dead
  | .keyError => .keyErrorReraised
  | .commError => .valueError .comm
  | .moduleNotFound m =>
      match ph with
      | .call => .valueError (.missingPackageTarget m)
      | .loads =>
          if conda then .valueError (.missingPackageInstaller m)
          else if startsWithL "numpy._core".data m.data then
            .valueError .mismatchedNumpy
          else if m == "pandas.core.indexes.numeric" then
            .valueError .mismatchedPandas
          else .valueError (.missingPackage m)
  | .otherError => .valueError .unknown

/-- `NamepaceBrowserWidget.get_value`. -/
def get_value (conda : Bool) (out : FetchOutcome) : GetValueResult :=
  match out with
  | .ok v => .value v
  | .raised ph e => handleFetchExc conda ph e

/-- Outcome of the two fallible steps of `set_value`: the
`cloudpickle.dumps` encoding (which happens before the `try` block) and the
guarded kernel call. -/
inductive StoreOutcome where
  | encodeRaises
  | ok
  | callRaises (e : PyExc)
deriving DecidableEq, Repr

/-- What `set_value` does as seen by its caller. -/
inductive SetValueResult where
  | returnsNormally
  | valueErrorNumpy
  | propagates
deriving DecidableEq, Repr

/-- `NamepaceBrowserWidget.set_value`: encoding happens before the `try`
block, so its failure propagates; inside the block only the
`ModuleNotFoundError`-with-`numpy._core` case raises a `ValueError`, every
other exception is swallowed (`except Exception: pass`). -/
def set_value (out : StoreOutcome) : SetValueResult :=
  match out with
  | .encodeRaises => .propagates
  | .ok => .returnsNormally
  | .callRaises (.moduleNotFound m) =>
      if startsWithL "numpy._core".data m.data then .valueErrorNumpy
      else .returnsNormally
  | .callRaises _ => .returnsNormally

/-! ### Natural sort on keys
Modelled from the spec: the key comparator of the collections-editor table
model (`natsort` in `spyder/widgets/collectionseditor.py`, which is not
among the sources; only its tests are).  Per the spec, each key is split
into alternating runs of digits and non-digits; runs are compared pairwise,
numeric runs by numeric value, non-numeric runs lexicographically. -/

/-- Modelled from the spec: split a key into maximal runs of characters that
agree on `Char.isDigit`. -/
def splitRuns : List Char → List (List Char)
  | [] => []
  | c :: cs =>
    match splitRuns cs with
    | (d :: g) :: gs =>
      if c.isDigit == d.isDigit then (c :: d :: g) :: gs
      else [c] :: (d :: g) :: gs
    | gs => [c] :: gs

/-- One run of a natural-sort key: a digit run read as a number, or a
non-digit run kept as text. -/
inductive Run where
  | num (n : Nat)
  | str (s : List Char)
deriving DecidableEq, Repr

/-- Classify one (homogeneous) run. -/
def toRun (g : List Char) : Run :=
  match g with
  | [] => .str []
  | c :: _ => if c.isDigit then .num (digitsVal g) else .str g

/-- Modelled from the spec: the natural-sort key of a string. -/
def natKeyL (s : List Char) : List Run := (splitRuns s).map toRun

/-- Lexicographic comparison of character lists. -/
def cmpCharList : List Char → List Char → Ordering
  | [], [] => .eq
  | [], _ :: _ => .lt
  | _ :: _, [] => .gt
  | a :: as, b :: bs =>
    match compare a b with
    | .eq => cmpCharList as bs
    | o => o

/-- Compare two runs: numeric runs by value, text runs lexicographically;
a numeric run sorts before a text run. -/
def cmpRun : Run → Run → Ordering
  | .num a, .num b => compare a b
  | .str a, .str b => cmpCharList a b
  | .num _, .str _ => .lt
  | .str _, .num _ => .gt

/-- Lexicographic comparison of run lists. -/
def cmpRuns : List Run → List Run → Ordering
  | [], [] => .eq
  | [], _ :: _ => .lt
  | _ :: _, [] => .gt
  | a :: as, b :: bs =>
    match cmpRun a b with
    | .eq => cmpRuns as bs
    | o => o

/-- Modelled from the spec: the key-column natural-sort comparator. -/
def natCompare (a b : String) : Ordering := cmpRuns (natKeyL a.data) (natKeyL b.data)

/-- Stable insertion into an already sorted list: the new element goes after
every element it does not strictly precede, so elements that compare equal
keep their arrival order. -/
def insertBy (cmp : α → α → Ordering) (x : α) : List α → List α
  | [] => [x]
  | y :: ys => if cmp x y = .lt then x :: y :: ys else y :: insertBy cmp x ys

/-- Stable insertion sort (left fold keeps the original relative order of
elements that compare equal). -/
def sortStable (cmp : α → α → Ordering) (l : List α) : List α :=
  l.foldl (fun acc x => insertBy cmp x acc) []

/-- Sort a key list with the natural-sort comparator. -/
def sortKeysNat (l : List String) : List String := sortStable natCompare l

/-- A key of the form `testN` in decimal notation. -/
def testKey (n : Nat) : String := String.mk ('t' :: 'e' :: 's' :: 't' :: decChars n)

/-! ### Lazy sortable table model
Modelled from the spec: the entry rows, per-column comparators, sort
directions and the cyclic sort state of `CollectionsModel`
(`spyder/widgets/collectionseditor.py`, not among the sources). -/

/-- A size descriptor: an element count, or an ordered dimension tuple. -/
inductive SizeDesc where
  | scalar (n : Nat)
  | dims (ds : List Nat)
deriving DecidableEq, Repr

/-- One table row: key, type tag, size descriptor, display text and, when
the value is numeric, its numeric reading used by the value column. -/
structure Entry where
  key : String
  typeTag : String
  size : SizeDesc
  display : String
  numValue : Option ℚ
deriving DecidableEq

/-- The sortable columns. -/
inductive SortColumn where
  | key
  | type
  | size
  | value
deriving DecidableEq, Repr

/-- Sort direction, including the insertion-order reset state. -/
inductive SortDirection where
  | ascending
  | descending
  | insertionOrder
deriving DecidableEq, Repr

/-- Compare rationals through their linear order. -/
def cmpRat (a b : ℚ) : Ordering :=
  if a < b then .lt else if b < a then .gt else .eq

/-- Lexicographic comparison of dimension tuples. -/
def cmpNatList : List Nat → List Nat → Ordering
  | [], [] => .eq
  | [], _ :: _ => .lt
  | _ :: _, [] => .gt
  | a :: as, b :: bs =>
    match compare a b with
    | .eq => cmpNatList as bs
    | o => o

/-- Modelled from the spec: size comparison — numeric when both are scalar
counts, lexicographic by dimension for tuples, scalar-first when mixed. -/
def cmpSize : SizeDesc → SizeDesc → Ordering
  | .scalar a, .scalar b => compare a b
  | .dims a, .dims b => cmpNatList a b
  | .scalar _, .dims _ => .lt
  | .dims _, .scalar _ => .gt

/-- Modelled from the spec: the per-column comparators of §4.3 — natural
sort on keys; type tag lexicographically with ties broken by size then key;
size with ties broken by key; value numerically when both values are
numeric, else by display text. -/
def cmpFor : SortColumn → Entry → Entry → Ordering
  | .key, a, b => natCompare a.key b.key
  | .type, a, b =>
      (cmpCharList a.typeTag.data b.typeTag.data).then
        ((cmpSize a.size b.size).then (natCompare a.key b.key))
  | .size, a, b => (cmpSize a.size b.size).then (natCompare a.key b.key)
  | .value, a, b =>
      match a.numValue, b.numValue with
      | some x, some y => cmpRat x y
      | _, _ => cmpCharList a.display.data b.display.data

/-- Modelled from the spec: apply a sort direction to the rows — ascending
is the stable sort, descending is the exact reverse of the ascending order
(not a separately computed order), insertion order ignores the comparator. -/
def applySort (col : SortColumn) (dir : SortDirection) (rows : List Entry) : List Entry :=
  match dir with
  | .insertionOrder => rows
  | .ascending => sortStable (cmpFor col) rows
  | .descending => (sortStable (cmpFor col) rows).reverse

/-- The active sort state: the selected column, if any, and the direction. -/
structure SortState where
  column : Option SortColumn
  direction : SortDirection
deriving DecidableEq, Repr

/-- The direction cycle on repeated activation of one column. -/
def nextDirection : SortDirection → SortDirection
  | .ascending => .descending
  | .descending => .insertionOrder
  | .insertionOrder => .ascending

/-- Modelled from the spec: activating a column cycles the direction when the
column is already active and otherwise resets to ascending on that column. -/
def activate (s : SortState) (c : SortColumn) : SortState :=
  if s.column = some c then ⟨some c, nextDirection s.direction⟩
  else ⟨some c, .ascending⟩

/-- Row order rendered under a sort state. -/
def render (s : SortState) (rows : List Entry) : List Entry :=
  match s.column with
  | none => rows
  | some col => applySort col s.direction rows

/-! ### Lazy paging
Modelled from the spec: `PageWindow` and `fetch_more` (`fetchMore` /
`rows_loaded` / `ROWS_TO_LOAD` of `CollectionsModel`, not among the
sources). -/

/-- The paging window over an entry store with `total` entries. -/
structure PageWindow where
  total : Nat
  pageSize : Nat
  loaded : Nat
deriving DecidableEq, Repr

/-- A fresh model starts with one page loaded, capped by the total. -/
def initWindow (n p : Nat) : PageWindow := ⟨n, p, min p n⟩

/-- Modelled from the spec: `fetch_more` grows the loaded count by one page,
clamped to the total, and is a no-op once everything is loaded. -/
def fetchMore (w : PageWindow) : PageWindow :=
  if w.loaded < w.total then ⟨w.total, w.pageSize, min (w.loaded + w.pageSize) w.total⟩
  else w

/-- Iterate `fetchMore`. -/
def fetchRep : Nat → PageWindow → PageWindow
  | 0, w => w
  | k + 1, w => fetchRep k (fetchMore w)

/-- Ceiling division. -/
def ceilDivNat (n p : Nat) : Nat := (n + p - 1) / p

/-! ### Risky-open decision: `CollectionsDelegate.show_warning`
(`spyder/plugins/variableexplorer/widgets/collectionsdelegate.py`) -/

/-- `LARGE_COLLECTION = 1e5` (an integer count compares to it exactly). -/
def LARGE_COLLECTION : Int := 100000

/-- `LARGE_ARRAY = 5e6`. -/
def LARGE_ARRAY : Int := 5000000

/-- The first branch test: `val_type in ['list', 'set', 'tuple', 'dict']`. -/
def isCollTag (t : String) : Bool :=
  t == "list" || t == "set" || t == "tuple" || t == "dict"

/-- The second branch test: `val_type in ['DataFrame', 'Series'] or
'Array' in val_type or 'Index' in val_type`. -/
def isArrayLike (t : String) : Bool :=
  t == "DataFrame" || t == "Series" ||
  containsSub "Array".data t.data || containsSub "Index".data t.data

/-- A parenthesis character, for `val_size.strip("()")`. -/
def isParenChar (c : Char) : Bool := c == '(' || c == ')'

/-- `val_size.strip("()")`: drop parenthesis characters from both ends. -/
def stripParens (s : List Char) : List Char :=
  ((s.dropWhile isParenChar).reverse.dropWhile isParenChar).reverse

/-- Python `str.split(",")`. -/
def splitComma : List Char → List (List Char)
  | [] => [[]]
  | c :: cs =>
    if c == ',' then [] :: splitComma cs
    else
      match splitComma cs with
      | p :: ps => (c :: p) :: ps
      | [] => [[c]]

/-- The guarded shape computation of `show_warning`:
`shape = [int(s) for s in val_size.strip("()").split(",") if s]` followed by
`functools.reduce(operator.mul, shape)`.  `none` models any exception inside
the `try` (an unparsable piece, or `reduce` over an empty list). -/
def shapeProd (s : List Char) : Option Int :=
  match ((splitComma (stripParens s)).filter (fun p => !p.isEmpty)).mapM parsePyInt with
  | none => none
  | some [] => none
  | some (x :: xs) => some (xs.foldl (· * ·) x)

/-- `CollectionsDelegate.show_warning`, deciding from the type tag and the
displayed size whether opening the value deserves a warning.  `Except.error`
models an exception escaping to the caller: in the collection branch
`int(val_size)` is not guarded, while the whole array branch sits inside
`try ... except Exception: pass`. -/
def show_warning (valType valSize : String) : Except Unit Bool :=
  if isCollTag valType then
    match parsePyInt valSize.data with
    | some n => .ok (decide (n > LARGE_COLLECTION))
    | none => .error ()
  else if isArrayLike valType then
    match shapeProd valSize.data with
    | some size => .ok (decide (size > LARGE_ARRAY))
    | none => .ok false
  else .ok false

/-! ### Editor data accessors: `make_data_function`
(`CollectionsDelegate.make_data_function` and
`ToggleColumnDelegate.make_data_function` of `collectionsdelegate.py`) -/

/-- A model Python object as seen by the data functions: a scalar, a
subscriptable collection (tuple/list/dict/set), or a plain object whose
attributes are read with `getattr`. -/
inductive PyObj where
  | atom (tag : String)
  | coll (items : List (String × PyObj))
  | obj (attrs : List (String × PyObj))

/-- Association-list lookup for collection items or object attributes. -/
def lookupAssoc : List (String × PyObj) → String → Option PyObj
  | [], _ => none
  | (k, v) :: rest, key => if k == key then some v else lookupAssoc rest key

/-- How the nested `datafun` ends: with a value, with `None` (a caught
`AttributeError`/`TypeError`/... — the error report to its owner), or with
an uncaught `KeyError`/`IndexError` escaping from `data[key]`. -/
inductive Resolved where
  | found (v : PyObj)
  | errNone
  | raisedLookupError

/-- The value sitting at the captured key of a root object, regardless of
whether the root is a collection or an object. -/
def accessAt (data : PyObj) (key : String) : Option PyObj :=
  match data with
  | .atom _ => none
  | .coll items => lookupAssoc items key
  | .obj attrs => lookupAssoc attrs key

/-- The closure built by `CollectionsDelegate.make_data_function`: `key` was
captured at creation time; on a collection root it subscripts (`data[key]`,
whose failure is an uncaught `KeyError`), otherwise it tries `getattr`,
returning `None` when that fails. -/
def datafun (key : String) (data : PyObj) : Resolved :=
  match data with
  | .coll items =>
      match lookupAssoc items key with
      | some v => .found v
      | none => .raisedLookupError
  | .obj attrs =>
      match lookupAssoc attrs key with
      | some v => .found v
      | none => .errNone
  | .atom _ => .errNone

/-- Walk an attribute path from a root, as
`ToggleColumnDelegate.make_data_function`'s loop does; `none` when any
`getattr` step fails. -/
def walkAttrs (data : PyObj) : List String → Option PyObj
  | [] => some data
  | a :: rest =>
    match data with
    | .obj attrs =>
        match lookupAssoc attrs a with
        | some v => walkAttrs v rest
        | none => none
    | _ => none

/-- The closure built by `ToggleColumnDelegate.make_data_function`: the
attribute path (the object path minus the leading variable name) was
captured at creation time; every failure of the walk is caught and reported
as `None`. -/
def datafunPath (path : List String) (data : PyObj) : Resolved :=
  match walkAttrs data path with
  | some v => .found v
  | none => .errNone

/-! ### Read-only decision of `createEditor`
(lines 215–217 and 717–718 of `collectionsdelegate.py`) -/

/-- The value kinds distinguished by the `isinstance` test of the
read-only computation. -/
inductive VKind where
  | tuple
  | set
  | frozenset
  | list
  | dict
  | other
deriving DecidableEq, Repr

/-- The source's read-only flag:
`isinstance(value, (tuple, set)) or self.parent().readonly or
not is_known_type(value)`.  `isKnownType` stands for the external
`is_known_type(value)` predicate. -/
def readonly_flag (k : VKind) (parentReadonly isKnownType : Bool) : Bool :=
  (k == .tuple || k == .set) || parentReadonly || !isKnownType

/-- What the claim's words describe (for comparison with `readonly_flag`):
the value is an immutable container — a tuple or a frozenset —, or the
parent context is read-only, or the value's type is not recognized. -/
def readonly_claim (k : VKind) (parentReadonly isKnownType : Bool) : Bool :=
  (k == .tuple || k == .frozenset) || parentReadonly || !isKnownType

/-! ### Accept/reject of an edit session
(`CollectionsDelegate.editor_accepted` / `editor_rejected` and
`ToggleColumnDelegate.editor_accepted` of `collectionsdelegate.py`) -/

/-- The per-editor data kept in `self._editors` that the accept path reads. -/
structure Session where
  readonly : Bool
deriving DecidableEq, Repr

/-- The delegate state touched by the accept/reject paths: the editor
registry, how many free-memory requests were emitted, and how many times
`set_value` was invoked. -/
structure DelState where
  editors : List (Nat × Session)
  freeCount : Nat
  storeCalls : Nat
deriving DecidableEq, Repr

/-- Registry lookup (`self._editors[editor_id]`). -/
def lookupEditor : List (Nat × Session) → Nat → Option Session
  | [], _ => none
  | (k, v) :: rest, eid => if k == eid then some v else lookupEditor rest eid

/-- `self._editors.pop(editor_id)` under `try ... except KeyError: pass`:
removal tolerates the entry already being gone. -/
def popEditor (eid : Nat) (l : List (Nat × Session)) : List (Nat × Session) :=
  l.filter (fun p => p.1 != eid)

/-- `CollectionsDelegate.editor_accepted`: when the session is not
read-only it invokes `set_value` inside a `try` whose handler only shows a
message box, so `storeFails` never interrupts the flow; the registry pop and
the free-memory request always follow.  `none` models the `KeyError` of
reading an unregistered id. -/
def editor_accepted (st : DelState) (eid : Nat) (storeFails : Bool) : Option DelState :=
  match lookupEditor st.editors eid with
  | none => none
  | some s =>
    let st1 := if s.readonly then st else { st with storeCalls := st.storeCalls + 1 }
    let _ := storeFails
    some { st1 with
            editors := popEditor eid st1.editors,
            freeCount := st1.freeCount + 1 }

/-- `CollectionsDelegate.editor_rejected`: pop (tolerating absence) and
request a memory free. -/
def editor_rejected (st : DelState) (eid : Nat) : DelState :=
  { st with editors := popEditor eid st.editors, freeCount := st.freeCount + 1 }

/-- `ToggleColumnDelegate.editor_accepted`: the `set_value` call is not
guarded, so a failing store raises out of the method (`Except.error`,
carrying the state at that point) before the registry pop and the
free-memory request can run.  `hasCurrentIndex` is the truthiness of
`self.current_index`. -/
def toggle_editor_accepted (st : DelState) (eid : Nat)
    (hasCurrentIndex storeFails : Bool) : Except DelState DelState :=
  match lookupEditor st.editors eid with
  | none => .error st
  | some s =>
    if !s.readonly && hasCurrentIndex then
      if storeFails then .error { st with storeCalls := st.storeCalls + 1 }
      else .ok { st with
                  storeCalls := st.storeCalls + 1,
                  editors := popEditor eid st.editors,
                  freeCount := st.freeCount + 1 }
    else .ok { st with
                editors := popEditor eid st.editors,
                freeCount := st.freeCount + 1 }

/-! ## Helper lemmas -/

theorem digitVal_digitChar {k : Nat} (h : k < 10) : digitVal (Nat.digitChar k) = k := by
  revert h
  revert k
  decide

theorem isDigit_digitChar {k : Nat} (h : k < 10) : (Nat.digitChar k).isDigit = true := by
  revert h
  revert k
  decide

theorem decCharsGo_append (gas : Nat) :
    ∀ n acc, decCharsGo gas n acc = decCharsGo gas n [] ++ acc := by
  induction gas with
  | zero => intro n acc; rfl
  | succ gas ih =>
    intro n acc
    by_cases h : n < 10
    · simp [decCharsGo, h]
    · simp only [decCharsGo, if_neg h]
      rw [ih (n / 10) (Nat.digitChar (n % 10) :: acc),
        ih (n / 10) (Nat.digitChar (n % 10) :: [])]
      simp

theorem digitsVal_append_single (xs : List Char) (c : Char) :
    digitsVal (xs ++ [c]) = 10 * digitsVal xs + digitVal c := by
  simp [digitsVal, List.foldl_append]

theorem digitsVal_decCharsGo (gas : Nat) :
    ∀ n, n < gas → digitsVal (decCharsGo gas n []) = n := by
  induction gas with
  | zero => intro n h; omega
  | succ gas ih =>
    intro n h
    by_cases h10 : n < 10
    · simp [decCharsGo, if_pos h10, digitsVal, digitVal_digitChar h10]
    · have hdiv : n / 10 < gas := by
        have := Nat.div_lt_self (by omega : 0 < n) (by omega : 1 < 10)
        omega
      simp only [decCharsGo, if_neg h10]
      rw [decCharsGo_append, digitsVal_append_single, ih (n / 10) hdiv,
        digitVal_digitChar (Nat.mod_lt n (by omega))]
      omega

theorem digitsVal_decChars (n : Nat) : digitsVal (decChars n) = n :=
  digitsVal_decCharsGo (n + 1) n (Nat.lt_succ_self n)

theorem decCharsGo_all_digits (gas : Nat) :
    ∀ n acc, acc.all Char.isDigit = true → (decCharsGo gas n acc).all Char.isDigit = true := by
  induction gas with
  | zero => intro n acc h; exact h
  | succ gas ih =>
    intro n acc h
    by_cases h10 : n < 10
    · simp [decCharsGo, if_pos h10, isDigit_digitChar h10, h]
    · simp only [decCharsGo, if_neg h10]
      exact ih (n / 10) _ (by
        simp [isDigit_digitChar (Nat.mod_lt n (by omega)), h])

theorem decChars_all_digits (n : Nat) : (decChars n).all Char.isDigit = true :=
  decCharsGo_all_digits (n + 1) n [] rfl

theorem decCharsGo_ne_nil (gas : Nat) :
    ∀ n acc, acc = [] → gas ≠ 0 → decCharsGo gas n acc ≠ [] := by
  induction gas with
  | zero => intro n acc _ h; omega
  | succ gas ih =>
    intro n acc hacc _
    by_cases h10 : n < 10
    · simp [decCharsGo, if_pos h10]
    · simp only [decCharsGo, if_neg h10]
      rw [decCharsGo_append]
      simp

theorem decChars_ne_nil (n : Nat) : decChars n ≠ [] :=
  decCharsGo_ne_nil (n + 1) n [] rfl (by omega)

theorem splitRuns_cons (c : Char) (cs : List Char) :
    splitRuns (c :: cs) =
      match splitRuns cs with
      | (d :: g) :: gs =>
        if c.isDigit == d.isDigit then (c :: d :: g) :: gs
        else [c] :: (d :: g) :: gs
      | gs => [c] :: gs := rfl

theorem splitRuns_all_digits {c : Char} :
    ∀ cs : List Char, c.isDigit = true → cs.all Char.isDigit = true →
      splitRuns (c :: cs) = [c :: cs] := by
  intro cs
  induction cs generalizing c with
  | nil => intro _ _; rfl
  | cons d cs ih =>
    intro hc hall
    rw [List.all_cons, Bool.and_eq_true] at hall
    have hrec := ih hall.1 hall.2
    rw [splitRuns_cons, hrec]
    simp [hc, hall.1]

theorem splitRuns_test {d : Char} {ds : List Char}
    (hd : d.isDigit = true) (hds : ds.all Char.isDigit = true) :
    splitRuns ('t' :: 'e' :: 's' :: 't' :: d :: ds) = [['t', 'e', 's', 't'], d :: ds] := by
  have h1 : splitRuns (d :: ds) = [d :: ds] := splitRuns_all_digits ds hd hds
  have ht : ('t' : Char).isDigit = false := by decide
  have he : ('e' : Char).isDigit = false := by decide
  have hs : ('s' : Char).isDigit = false := by decide
  have h2 : splitRuns ('t' :: d :: ds) = [['t'], d :: ds] := by
    rw [splitRuns_cons, h1]
    simp [ht, hd]
  have h3 : splitRuns ('s' :: 't' :: d :: ds) = [['s', 't'], d :: ds] := by
    rw [splitRuns_cons, h2]
    simp [hs, ht]
  have h4 : splitRuns ('e' :: 's' :: 't' :: d :: ds) = [['e', 's', 't'], d :: ds] := by
    rw [splitRuns_cons, h3]
    simp [he, hs]
  rw [splitRuns_cons, h4]
  simp [ht, he]

theorem natKeyL_testKey (n : Nat) :
    natKeyL (testKey n).data = [Run.str ['t', 'e', 's', 't'], Run.num n] := by
  have hne := decChars_ne_nil n
  have hall := decChars_all_digits n
  obtain ⟨d, ds, hds⟩ : ∃ d ds, decChars n = d :: ds := by
    cases h : decChars n with
    | nil => exact absurd h hne
    | cons d ds => exact ⟨d, ds, rfl⟩
  have hd : d.isDigit = true := by
    rw [hds] at hall
    simp [List.all_cons] at hall
    exact hall.1
  have hdall : ds.all Char.isDigit = true := by
    rw [hds] at hall
    simp [List.all_cons] at hall
    exact List.all_eq_true.mpr (fun x hx => hall.2 x hx)
  have hdata : (testKey n).data = 't' :: 'e' :: 's' :: 't' :: d :: ds := by
    simp [testKey, hds]
  rw [hdata, natKeyL, splitRuns_test hd hdall]
  have hval : digitsVal (d :: ds) = n := by
    rw [← hds]; exact digitsVal_decChars n
  simp [toRun, hd, hval]

/-! ## Claim theorems -/

/-- C3: the key-column comparator is the natural sort: the concrete list
`["test3", "test100", "test20"]` sorts to `["test3", "test20", "test100"]`,
and for any two keys of the form `testN` the comparator orders them by `N`. -/
theorem C3_natural_sort :
    sortKeysNat ["test3", "test100", "test20"] = ["test3", "test20", "test100"]
    ∧ ∀ a b : Nat, a < b → natCompare (testKey a) (testKey b) = .lt := by
  constructor
  · decide
  · intro a b hab
    rw [natCompare, natKeyL_testKey a, natKeyL_testKey b]
    have heq : cmpCharList ['t', 'e', 's', 't'] ['t', 'e', 's', 't'] = .eq := by decide
    simp [cmpRuns, cmpRun, heq, Nat.compare_eq_lt.mpr hab]

/-- C3 witness: `test3` sorts strictly before `test100`. -/
theorem C3_natural_sort_witness : natCompare (testKey 3) (testKey 100) = .lt :=
  C3_natural_sort.2 3 100 (by omega)

/-- C1 counterexample: a `ModuleNotFoundError` is not mapped to the
unknown-error explanation, contrary to the claim's "any other exception
yields the unknown-error explanation": raised during the kernel call it
yields the missing-in-console-environment explanation, and raised during
deserialization (outside a conda app) it yields the
missing-alongside-Spyder explanation. -/
theorem C1_counterexample :
    get_value false (.raised .call (.moduleNotFound "scipy"))
      = .valueError (.missingPackageTarget "scipy")
    ∧ get_value false (.raised .loads (.moduleNotFound "scipy"))
      = .valueError (.missingPackage "scipy")
    ∧ Reason.missingPackageTarget "scipy" ≠ Reason.unknown
    ∧ Reason.missingPackage "scipy" ≠ Reason.unknown := by
  refine ⟨rfl, by decide, by decide, by decide⟩

/-- C1 (amended): every fetch failure is surfaced as a typed error, never as
a silent success value: a timeout yields the variable-too-big explanation, a
`RuntimeError` the kernel-dead explanation, a `CommError` the broken-channel
explanation, pickling/unpickling/`TypeError` failures the not-serializable
or Python-version-mismatch explanations, a `KeyError` is re-raised
unchanged, a `ModuleNotFoundError` yields a missing-module explanation
(which one depends on the call phase, the installer, and the numpy/pandas
version checks), and any other exception yields the unknown-error
explanation. -/
theorem C1_fetch_error_taxonomy :
    ∀ (conda : Bool) (ph : Phase) (e : PyExc) (v : Nat) (msg mn : String),
    get_value conda (.ok v) = .value v
    ∧ get_value conda (.raised ph e) ≠ .value v
    ∧ get_value conda (.raised ph .timeoutError) = .valueError .big
    ∧ get_value conda (.raised ph (.pickleError msg))
        = .valueError
            (if isVersionMismatchMsg msg then .mismatchedPython else .notPicklable)
    ∧ get_value conda (.raised ph .runtimeError) = .valueError .dead
    ∧ get_value conda (.raised ph .keyError) = .keyErrorReraised
    ∧ get_value conda (.raised ph .commError) = .valueError .comm
    ∧ get_value conda (.raised .call (.moduleNotFound mn))
        = .valueError (.missingPackageTarget mn)
    ∧ get_value conda (.raised .loads (.moduleNotFound mn))
        = .valueError
            (if conda then .missingPackageInstaller mn
             else if startsWithL "numpy._core".data mn.data then .mismatchedNumpy
             else if mn == "pandas.core.indexes.numeric" then .mismatchedPandas
             else .missingPackage mn)
    ∧ get_value conda (.raised ph .otherError) = .valueError .unknown := by
  intro conda ph e v msg mn
  refine ⟨rfl, ?_, ?_, ?_, ?_, rfl, rfl, rfl, ?_, rfl⟩
  · cases e <;> cases ph <;> simp [get_value, handleFetchExc] <;> split_ifs <;> simp
  · cases ph <;> rfl
  · cases ph <;> (simp only [get_value, handleFetchExc]; split_ifs <;> rfl)
  · cases ph <;> rfl
  · simp only [get_value, handleFetchExc]
    split_ifs <;> rfl

/-- C1 witness: a fetch that raises an exception never returns a value;
instantiated at a timeout during the kernel call. -/
theorem C1_fetch_error_taxonomy_witness :
    get_value false (.raised .call .timeoutError) ≠ .value 0 :=
  (C1_fetch_error_taxonomy false .call .timeoutError 0 "" "").2.1

/-- C2 counterexample: an encoding failure (`cloudpickle.dumps` raising) is
not discarded — the encoding happens before the `try` block, so the
exception propagates to the caller instead of `set_value` returning
normally. -/
theorem C2_counterexample :
    set_value .encodeRaises = .propagates
    ∧ SetValueResult.propagates ≠ SetValueResult.returnsNormally := by
  refine ⟨rfl, by decide⟩

/-- C2 (amended): when the guarded kernel call of `set_value` raises, the
failure is discarded and `set_value` returns normally — except a
`ModuleNotFoundError` whose reported module name starts with `numpy._core`,
which raises a typed `ValueError`; an encoding failure, by contrast, occurs
before the guarded region and propagates to the caller unchanged. -/
theorem C2_store_failures_swallowed :
    ∀ (e : PyExc) (mn : String),
    set_value .ok = .returnsNormally
    ∧ set_value .encodeRaises = .propagates
    ∧ set_value (.callRaises (.moduleNotFound mn))
        = (if startsWithL "numpy._core".data mn.data then .valueErrorNumpy
           else .returnsNormally)
    ∧ ((∀ m : String, e ≠ .moduleNotFound m) →
        set_value (.callRaises e) = .returnsNormally) := by
  intro e mn
  refine ⟨rfl, rfl, rfl, ?_⟩
  intro h
  cases e with
  | moduleNotFound m => exact absurd rfl (h m)
  | timeoutError => rfl
  | pickleError msg => rfl
  | runtimeError => rfl
  | keyError => rfl
  | commError => rfl
  | otherError => rfl

/-- C2 witness: a generic exception from the kernel call (here a
`CommError`) is swallowed and `set_value` returns normally. -/
theorem C2_store_failures_swallowed_witness :
    set_value (.callRaises .commError) = .returnsNormally :=
  (C2_store_failures_swallowed .commError "").2.2.2 (fun m h => by cases h)

/-- C4: for every entry set and every sortable column, sorting descending
is the exact reverse of sorting ascending on that column, and insertion
order ignores the comparator, restoring the original sequence. -/
theorem C4_descending_reverses_ascending :
    ∀ (rows : List Entry) (col : SortColumn),
    applySort col .descending rows = (applySort col .ascending rows).reverse
    ∧ applySort col .insertionOrder rows = rows :=
  fun _ _ => ⟨rfl, rfl⟩

/-- C5: activating the already-active column cycles the direction
ascending → descending → insertion order → ascending; three consecutive
activations of one column starting from any state not sorted on it render
the rows in original insertion order again; activating a different column
resets the state to ascending on that column. -/
theorem C5_sort_state_cycle :
    ∀ (s : SortState) (c : SortColumn) (rows : List Entry),
    (s.column = some c → activate s c = ⟨some c, nextDirection s.direction⟩)
    ∧ (nextDirection .ascending = .descending
        ∧ nextDirection .descending = .insertionOrder
        ∧ nextDirection .insertionOrder = .ascending)
    ∧ (s.column ≠ some c →
        render (activate (activate (activate s c) c) c) rows = rows)
    ∧ (s.column ≠ some c → activate s c = ⟨some c, .ascending⟩) := by
  intro s c rows
  refine ⟨?_, ⟨rfl, rfl, rfl⟩, ?_, ?_⟩
  · intro h
    simp [activate, h]
  · intro h
    simp [activate, h, nextDirection, render, applySort]
  · intro h
    simp [activate, h]

/-- C5 witness: from the initial (unsorted) state, three activations of the
key column restore the insertion order of a concrete two-row table. -/
theorem C5_sort_state_cycle_witness :
    render
      (activate (activate (activate ⟨none, .insertionOrder⟩ .key) .key) .key)
      [⟨"b", "int", .scalar 1, "2", some 2⟩, ⟨"a", "int", .scalar 1, "1", some 1⟩]
    = [⟨"b", "int", .scalar 1, "2", some 2⟩, ⟨"a", "int", .scalar 1, "1", some 1⟩] :=
  (C5_sort_state_cycle ⟨none, .insertionOrder⟩ .key _).2.2.1 (by simp)

theorem fetchMore_total (w : PageWindow) : (fetchMore w).total = w.total := by
  rw [fetchMore]
  split <;> rfl

theorem fetchMore_pageSize (w : PageWindow) : (fetchMore w).pageSize = w.pageSize := by
  rw [fetchMore]
  split <;> rfl

theorem fetchRep_total (k : Nat) : ∀ w : PageWindow, (fetchRep k w).total = w.total := by
  induction k with
  | zero => intro w; rfl
  | succ k ih => intro w; rw [fetchRep, ih, fetchMore_total]

theorem fetchRep_noop (k : Nat) :
    ∀ w : PageWindow, ¬ w.loaded < w.total → fetchRep k w = w := by
  induction k with
  | zero => intro w _; rfl
  | succ k ih =>
    intro w h
    have hstop : fetchMore w = w := by
      rw [fetchMore, if_neg h]
    rw [fetchRep, hstop, ih w h]

theorem fetchRep_loaded (k : Nat) :
    ∀ (m n p : Nat) (w : PageWindow), w.total = n → w.pageSize = p →
      w.loaded = min ((m + 1) * p) n →
      (fetchRep k w).loaded = min ((m + 1 + k) * p) n := by
  induction k with
  | zero => intro m n p w ht hp hl; simpa using hl
  | succ k ih =>
    intro m n p w ht hp hl
    rw [fetchRep]
    by_cases hlt : w.loaded < w.total
    · have hlow : (m + 1) * p < n := by
        rw [ht] at hlt
        omega
      have hl2 : (fetchMore w).loaded = min ((m + 1 + 1) * p) n := by
        rw [fetchMore, if_pos hlt]
        show min (w.loaded + w.pageSize) w.total = min ((m + 1 + 1) * p) n
        rw [ht, hp, hl]
        have hexp : (m + 1 + 1) * p = (m + 1) * p + p := by ring
        rw [hexp]
        omega
      have := ih (m + 1) n p (fetchMore w)
        (by rw [fetchMore_total, ht]) (by rw [fetchMore_pageSize, hp]) hl2
      rw [this]
      have harith : m + 1 + 1 + k = m + 1 + (k + 1) := by omega
      rw [harith]
    · rw [fetchRep_noop k (fetchMore w) (by rw [fetchMore, if_neg hlt]; exact hlt),
        fetchMore, if_neg hlt]
      have hmul : (m + 1) * p ≤ (m + 1 + (k + 1)) * p :=
        Nat.mul_le_mul_right p (by omega)
      rw [ht] at hlt
      omega

theorem ceilDiv_mul_ge {n p : Nat} (hp : 0 < p) : n ≤ ceilDivNat n p * p := by
  rw [ceilDivNat, Nat.mul_comm]
  have hdm := Nat.div_add_mod (n + p - 1) p
  have hlt := Nat.mod_lt (n + p - 1) hp
  omega

/-- C6: `fetch_more` on a not-fully-loaded model grows the loaded count by
one page size clamped to the total; at full load it is a no-op; hence
calling it `ceil(N / page_size)` times from the initial page always reaches
the fully loaded state, in which the loaded row count equals the total entry
count, and any further calls leave the model unchanged. -/
theorem C6_fetch_more_paging :
    ∀ (w : PageWindow) (n p k : Nat),
    (w.loaded < w.total →
      (fetchMore w).loaded = min (w.loaded + w.pageSize) w.total)
    ∧ (w.loaded = w.total → fetchMore w = w)
    ∧ (0 < p →
        (fetchRep (ceilDivNat n p) (initWindow n p)).loaded = n
        ∧ fetchRep k (fetchRep (ceilDivNat n p) (initWindow n p))
            = fetchRep (ceilDivNat n p) (initWindow n p)) := by
  intro w n p k
  refine ⟨?_, ?_, ?_⟩
  · intro h
    rw [fetchMore, if_pos h]
  · intro h
    rw [fetchMore, if_neg (by omega)]
  · intro hp
    have hinit : (initWindow n p).loaded = min ((0 + 1) * p) n := by
      simp [initWindow]
    have hfull := fetchRep_loaded (ceilDivNat n p) 0 n p (initWindow n p) rfl rfl hinit
    have hge := ceilDiv_mul_ge (n := n) hp
    have hmul : ceilDivNat n p * p ≤ (0 + 1 + ceilDivNat n p) * p :=
      Nat.mul_le_mul_right p (by omega)
    have hloaded : (fetchRep (ceilDivNat n p) (initWindow n p)).loaded = n := by
      rw [hfull]
      omega
    refine ⟨hloaded, ?_⟩
    apply fetchRep_noop
    rw [hloaded, fetchRep_total]
    simp [initWindow]

/-- C6 witness: with 120 entries and page size 50, three fetches fully load
the model and a further fetch changes nothing. -/
theorem C6_fetch_more_paging_witness :
    (fetchRep (ceilDivNat 120 50) (initWindow 120 50)).loaded = 120
    ∧ fetchRep 1 (fetchRep (ceilDivNat 120 50) (initWindow 120 50))
        = fetchRep (ceilDivNat 120 50) (initWindow 120 50) :=
  (C6_fetch_more_paging (initWindow 120 50) 120 50 1).2.2 (by omega)

theorem collTag_not_arrayLike {t : String} (h : isCollTag t = true) :
    isArrayLike t = false := by
  rw [isCollTag] at h
  simp only [Bool.or_eq_true, beq_iff_eq] at h
  rcases h with ((h | h) | h) | h <;> subst h <;> decide

/-- C7: `show_warning` answers true exactly when the type tag is one of the
collection tags and the element count parses above the large-collection
threshold, or the tag is array/frame-like and the declared dimensions
multiply to a product above the large-array threshold; in the array branch a
malformed size descriptor degrades to "not risky" instead of raising. -/
theorem C7_show_warning_decision :
    ∀ (t s : String),
    (show_warning t s = .ok true ↔
      (isCollTag t = true
        ∧ ∃ n : Int, parsePyInt s.data = some n ∧ n > LARGE_COLLECTION)
      ∨ (isArrayLike t = true
        ∧ ∃ prod : Int, shapeProd s.data = some prod ∧ prod > LARGE_ARRAY))
    ∧ (isArrayLike t = true → isCollTag t = false → shapeProd s.data = none →
        show_warning t s = .ok false) := by
  intro t s
  constructor
  · by_cases hc : isCollTag t
    · have ha := collTag_not_arrayLike hc
      cases hp : parsePyInt s.data with
      | none => simp [show_warning, hc, ha, hp]
      | some n => simp [show_warning, hc, ha, hp]
    · by_cases ha : isArrayLike t
      · cases hsp : shapeProd s.data with
        | none => simp [show_warning, hc, ha, hsp]
        | some prod => simp [show_warning, hc, ha, hsp]
      · simp [show_warning, hc, ha]
  · intro ha hc hsp
    simp [show_warning, hc, ha, hsp]

/-- C7 witness: a list of 200000 elements is risky; a user type whose tag
contains "Array" but whose size descriptor is malformed is not, and no
exception escapes. -/
theorem C7_show_warning_decision_witness :
    show_warning "list" "200000" = .ok true
    ∧ show_warning "MyArray" "garbage" = .ok false := by
  constructor
  · exact (C7_show_warning_decision "list" "200000").1.mpr
      (Or.inl ⟨rfl, 200000, rfl, by decide⟩)
  · exact (C7_show_warning_decision "MyArray" "garbage").2 (by decide) (by decide) rfl

/-- C8: both data accessors resolve only through the key or attribute path
captured at creation time — a value is returned exactly when it is the one
sitting at that captured path in the freshly fetched root — and when
re-resolution fails the session sees an error (the `None` report, or for a
collection subscript an uncaught lookup error), never a value from
elsewhere. -/
theorem C8_accessor_locality :
    ∀ (key : String) (path : List String) (data v : PyObj),
    (datafun key data = .found v ↔ accessAt data key = some v)
    ∧ (accessAt data key = none →
        datafun key data = .errNone ∨ datafun key data = .raisedLookupError)
    ∧ (datafunPath path data = .found v ↔ walkAttrs data path = some v)
    ∧ (walkAttrs data path = none → datafunPath path data = .errNone) := by
  intro key path data v
  refine ⟨?_, ?_, ?_, ?_⟩
  · cases data with
    | atom tag => simp [datafun, accessAt]
    | coll items =>
      cases hl : lookupAssoc items key <;> simp [datafun, accessAt, hl]
    | obj attrs =>
      cases hl : lookupAssoc attrs key <;> simp [datafun, accessAt, hl]
  · intro h
    cases data with
    | atom tag => exact Or.inl rfl
    | coll items => rw [accessAt] at h; right; rw [datafun, h]
    | obj attrs => rw [accessAt] at h; left; rw [datafun, h]
  · cases hw : walkAttrs data path <;> simp [datafunPath, hw]
  · intro h
    rw [datafunPath, h]

/-- C8 witness: the collection accessor returns the value at its captured
key, and the attribute-path accessor the value at its captured path. -/
theorem C8_accessor_locality_witness :
    datafun "a" (.coll [("a", .atom "x")]) = .found (.atom "x")
    ∧ datafunPath ["b"] (.obj [("b", .atom "y")]) = .found (.atom "y") :=
  ⟨(C8_accessor_locality "a" [] (.coll [("a", .atom "x")]) (.atom "x")).1.mpr rfl,
   (C8_accessor_locality "b" ["b"] (.obj [("b", .atom "y")]) (.atom "y")).2.2.1.mpr rfl⟩

/-- C9 counterexample: the source flags a mutable `set` as read-only even
though it is not an immutable container, and does not flag a `frozenset`
although it is one — refuting "read-only exactly when the value is an
immutable container (tuple/frozenset-like), the parent is read-only, or the
type is unrecognized" on both sides. -/
theorem C9_counterexample :
    readonly_flag .set false true = true
    ∧ readonly_claim .set false true = false
    ∧ readonly_flag .frozenset false true = false
    ∧ readonly_claim .frozenset false true = true := by
  decide

/-- C9 (amended): the read-only flag is true exactly when the value is a
tuple or a (mutable) set — frozensets are not caught by this `isinstance`
check —, or the parent context is read-only, or the value's type is not a
recognized (known) type. -/
theorem C9_readonly_formula :
    ∀ (k : VKind) (parentReadonly isKnownType : Bool),
    readonly_flag k parentReadonly isKnownType = true ↔
      (k = .tuple ∨ k = .set ∨ parentReadonly = true ∨ isKnownType = false) := by
  intro k p known
  cases k <;> cases p <;> cases known <;> decide

/-- C9 witness: a tuple in a writable parent of known type is read-only. -/
theorem C9_readonly_formula_witness : readonly_flag .tuple false true = true :=
  (C9_readonly_formula .tuple false true).mpr (Or.inl rfl)

theorem lookupEditor_popEditor (eid : Nat) :
    ∀ l : List (Nat × Session), lookupEditor (popEditor eid l) eid = none := by
  intro l
  induction l with
  | nil => rfl
  | cons kv rest ih =>
    by_cases hk : kv.1 = eid
    · simp [popEditor, List.filter_cons, hk] at ih ⊢
      exact ih
    · simp [popEditor, List.filter_cons, hk, lookupEditor] at ih ⊢
      exact ih

/-- C10 counterexample: in `ToggleColumnDelegate.editor_accepted` the store
is not guarded, so for a registered non-read-only session whose store
fails, the exception propagates while the session is still in the registry
and no free-memory request has been emitted — refuting "whether or not the
store succeeds, the session is always removed and a free-memory request is
emitted". -/
theorem C10_counterexample :
    toggle_editor_accepted ⟨[(1, ⟨false⟩)], 0, 0⟩ 1 true true
      = .error ⟨[(1, ⟨false⟩)], 0, 1⟩
    ∧ lookupEditor [(1, (⟨false⟩ : Session))] 1 = some ⟨false⟩ := by
  exact ⟨rfl, rfl⟩

/-- C10 (amended): accepting a registered read-only session never invokes
`set_value` and, in both delegates, removes the session and emits a
free-memory request; in `CollectionsDelegate`, acceptance and rejection
always remove the session and emit the request whether or not the store
succeeds; but in `ToggleColumnDelegate` a failing store on a non-read-only
session propagates before removal. -/
theorem C10_editor_lifecycle :
    ∀ (st : DelState) (eid : Nat) (s : Session) (storeFails hci : Bool),
    lookupEditor st.editors eid = some s →
    (s.readonly = true →
      editor_accepted st eid storeFails
        = some ⟨popEditor eid st.editors, st.freeCount + 1, st.storeCalls⟩
      ∧ toggle_editor_accepted st eid hci storeFails
        = .ok ⟨popEditor eid st.editors, st.freeCount + 1, st.storeCalls⟩)
    ∧ (∃ st', editor_accepted st eid storeFails = some st'
        ∧ lookupEditor st'.editors eid = none
        ∧ st'.freeCount = st.freeCount + 1)
    ∧ (lookupEditor (editor_rejected st eid).editors eid = none
        ∧ (editor_rejected st eid).freeCount = st.freeCount + 1)
    ∧ (s.readonly = false → hci = true → storeFails = true →
        toggle_editor_accepted st eid hci storeFails
          = .error { st with storeCalls := st.storeCalls + 1 }) := by
  intro st eid s storeFails hci hl
  refine ⟨?_, ?_, ?_, ?_⟩
  · intro hro
    constructor
    · simp [editor_accepted, hl, hro]
    · simp [toggle_editor_accepted, hl, hro]
  · cases hro : s.readonly
    · exact ⟨⟨popEditor eid st.editors, st.freeCount + 1, st.storeCalls + 1⟩,
        by simp [editor_accepted, hl, hro],
        lookupEditor_popEditor eid st.editors, rfl⟩
    · exact ⟨⟨popEditor eid st.editors, st.freeCount + 1, st.storeCalls⟩,
        by simp [editor_accepted, hl, hro],
        lookupEditor_popEditor eid st.editors, rfl⟩
  · exact ⟨lookupEditor_popEditor eid st.editors, rfl⟩
  · intro hro hhci hsf
    simp [toggle_editor_accepted, hl, hro, hhci, hsf]

/-- C10 witness: a registered read-only session is removed with a
free-memory request and no store call in both delegates. -/
theorem C10_editor_lifecycle_witness :
    editor_accepted ⟨[(2, ⟨true⟩)], 0, 0⟩ 2 false = some ⟨[], 1, 0⟩
    ∧ toggle_editor_accepted ⟨[(2, ⟨true⟩)], 0, 0⟩ 2 false false = .ok ⟨[], 1, 0⟩ :=
  (C10_editor_lifecycle ⟨[(2, ⟨true⟩)], 0, 0⟩ 2 ⟨true⟩ false false rfl).1 rfl

end Spyder
